import Mathlib

/-!
Verification development for the `session-rs` repository: a minimal
WebSocket (RFC 6455) transport with a session RPC layer on top.

The repository contains two parallel implementations:
* an async one: `src/ws/mod.rs` (frame codec `WebSocket::send_frame` /
  `WebSocket::read_frame` / `WebSocket::read`) and `src/handshake.rs`
  (server and client handshake);
* a blocking one: `src/session.rs` (`handshake::handle_websocket_handshake`,
  `Session::read_t`, `Session::new`, `Session::send_close` etc.).

Bytes are modelled as `Nat` (values kept below 256 by construction where it
matters), byte strings as `List Nat`, and the fallible stream reads as
`Except`-valued functions over the list of bytes still unread.  Frames the
code sends while reading (close / ping / pong replies) are collected in a
`sent` field of the result.
-/

deriving instance DecidableEq for Except

namespace SessionRs

/-- Errors of the WebSocket layer, from `src/ws/error.rs` (`Io` carries a
`std::io::Error`, `InvalidFrame` a message, `Utf8` a `FromUtf8Error`; the
payloads we do not need are dropped). -/
inductive WErr where
  | io
  | invalidFrame (msg : String)
  | handshakeFailed (msg : String)
  | utf8
  | connectionClosed
  deriving DecidableEq

/-- The frame type delivered by `WebSocket::read` (`src/ws/mod.rs`).
`text` carries the UTF-8 bytes of the Rust `String` (a Rust `String` is
exactly a valid-UTF-8 byte vector). -/
inductive Frame where
  | text (payload : List Nat)
  | binary (payload : List Nat)
  | ping
  | pong
  | close
  deriving DecidableEq

/-- Big-endian 2-byte encoding of a `u16` value (`(len as u16).to_be_bytes()`). -/
def be16 (n : Nat) : List Nat :=
  [n / 256 % 256, n % 256]

/-- Big-endian 8-byte encoding of a `u64` value (`(len as u64).to_be_bytes()`). -/
def be64 (n : Nat) : List Nat :=
  [n / 2 ^ 56 % 256, n / 2 ^ 48 % 256, n / 2 ^ 40 % 256, n / 2 ^ 32 % 256,
   n / 2 ^ 24 % 256, n / 2 ^ 16 % 256, n / 2 ^ 8 % 256, n % 256]

/-- Big-endian value of a byte list (`u16::from_be_bytes` / `u64::from_be_bytes`). -/
def beVal (l : List Nat) : Nat :=
  l.foldl (fun a b => a * 256 + b) 0

/-- XOR a payload with a 4-byte mask key starting at index `i`
(`payload[i] ^= mask_key[i % 4]`). -/
def xorMaskFrom (key : List Nat) (i : Nat) : List Nat → List Nat
  | [] => []
  | b :: rest => (b ^^^ key.getD (i % 4) 0) :: xorMaskFrom key (i + 1) rest

/-- XOR a payload with a 4-byte mask key (`for i in 0..len { p[i] ^= mask[i % 4] }`). -/
def xorMask (key payload : List Nat) : List Nat :=
  xorMaskFrom key 0 payload

/-- Read exactly `n` bytes from the input (`read_exact`): the bytes read and
the rest of the input, or `none` when the input is too short. -/
def takeB (n : Nat) (l : List Nat) : Option (List Nat × List Nat) :=
  if n ≤ l.length then some (l.take n, l.drop n) else none

/-- `WebSocket::send_frame` from `src/ws/mod.rs`: the exact bytes written for
one frame.  The randomly drawn mask key is a parameter. -/
def sendFrame (maskPayload : Bool) (maskKey : List Nat) (opcode : Nat)
    (payload : List Nat) : List Nat :=
  let maskBit := if maskPayload then 0x80 else 0x00
  let len := payload.length
  let lenBytes :=
    if len < 126 then [len ||| maskBit]
    else if len ≤ 0xFFFF then (126 ||| maskBit) :: be16 len
    else (127 ||| maskBit) :: be64 len
  let header := (0x80 ||| opcode) :: lenBytes
  if maskPayload then header ++ maskKey ++ xorMask maskKey payload
  else header ++ payload

/-- Result of `WebSocket::read_frame`: on success the `(fin, opcode, payload)`
triple together with the unread rest of the input; `sent` records the frames
the call itself wrote, as `(opcode, payload)` pairs. -/
structure RFRes where
  res : Except WErr (Bool × Nat × List Nat × List Nat)
  sent : List (Nat × List Nat)
  deriving DecidableEq

/-- Step 2 of `WebSocket::read_frame` (`src/ws/mod.rs`, lines 147-156):
read the extended payload length when the 7-bit field is 126 (2 bytes,
big-endian u16) or 127 (8 bytes, big-endian u64). -/
def parseExtLen (len0 : Nat) (r1 : List Nat) : Option (Nat × List Nat) :=
  if len0 == 126 then
    match takeB 2 r1 with
    | none => none
    | some (b, r2) => some (beVal b, r2)
  else if len0 == 127 then
    match takeB 8 r1 with
    | none => none
    | some (b, r2) => some (beVal b, r2)
  else some (len0, r1)

/-- Steps 3-4 of `WebSocket::read_frame` (`src/ws/mod.rs`, lines 167-180)
after the unmasked-frame check: read the 4-byte mask key — unconditionally,
which is the point of claim C1 — then the payload, XOR-unmasking it with
the bytes just read. -/
def readMaskPayload (fin : Bool) (opcode payloadLen : Nat) (r2 : List Nat) :
    RFRes :=
  match takeB 4 r2 with
  | none => ⟨.error .io, []⟩
  | some (mask, r3) =>
    match takeB payloadLen r3 with
    | none => ⟨.error .io, []⟩
    | some (raw, r4) =>
      let payload := if payloadLen > 0 then xorMask mask raw else raw
      ⟨.ok (fin, opcode, payload, r4), []⟩

/-- The tail of `WebSocket::read_frame` after the 2-byte header has been
parsed into `fin`, `opcode`, `masked` and the 7-bit length field
(`src/ws/mod.rs`, lines 147-180): extended length, the unmasked-frame
check (close + `InvalidFrame` when a server-role connection sees the mask
bit clear), then mask key and payload. -/
def readFrameRest (maskPayload fin : Bool) (opcode : Nat) (masked : Bool)
    (len0 : Nat) (r1 : List Nat) : RFRes :=
  match parseExtLen len0 r1 with
  | none => ⟨.error .io, []⟩
  | some (payloadLen, r2) =>
    if !masked && !maskPayload then
      ⟨.error (.invalidFrame "Received unmasked frame from client"), [(0x8, [])]⟩
    else readMaskPayload fin opcode payloadLen r2

/-- `WebSocket::read_frame` from `src/ws/mod.rs`, lines 135-181: read and
split the 2-byte header, then run the rest of the decode.  Note that the
source reads the 4-byte mask key and XOR-unmasks the payload
unconditionally, i.e. even when the frame's mask bit is clear;
`readMaskPayload` reproduces this faithfully. -/
def readFrame (maskPayload : Bool) (input : List Nat) : RFRes :=
  match takeB 2 input with
  | none => ⟨.error .io, []⟩
  | some (hdr, r1) =>
    let b0 := hdr.getD 0 0
    let b1 := hdr.getD 1 0
    readFrameRest maskPayload ((b0 &&& 0x80) != 0) (b0 &&& 0x0F)
      ((b1 &&& 0x80) != 0) (b1 &&& 0x7F) r1

/-- Whether a byte is a UTF-8 continuation byte (`0x80..=0xBF`). -/
def utf8Cont (b : Nat) : Bool :=
  0x80 ≤ b && b ≤ 0xBF

/-- Validity of a byte sequence as UTF-8, exactly the predicate under which
Rust's `String::from_utf8` succeeds (standard UTF-8: no overlong encodings,
no surrogates, code points at most `U+10FFFF`). -/
def utf8Valid : List Nat → Bool
  | [] => true
  | b :: rest =>
    if b ≤ 0x7F then utf8Valid rest
    else if 0xC2 ≤ b && b ≤ 0xDF then
      match rest with
      | c :: r => utf8Cont c && utf8Valid r
      | [] => false
    else if 0xE0 ≤ b && b ≤ 0xEF then
      match rest with
      | c :: d :: r =>
        (if b == 0xE0 then 0xA0 ≤ c && c ≤ 0xBF
         else if b == 0xED then 0x80 ≤ c && c ≤ 0x9F
         else utf8Cont c) && utf8Cont d && utf8Valid r
      | _ => false
    else if 0xF0 ≤ b && b ≤ 0xF4 then
      match rest with
      | c :: d :: e :: r =>
        (if b == 0xF0 then 0x90 ≤ c && c ≤ 0xBF
         else if b == 0xF4 then 0x80 ≤ c && c ≤ 0x8F
         else utf8Cont c) && utf8Cont d && utf8Cont e && utf8Valid r
      | _ => false
    else false

/-- The dispatch on the original opcode at the end of `WebSocket::read`
(`src/ws/mod.rs`, lines 212-239); `String::from_utf8(payload)?` succeeds
exactly when the payload is valid UTF-8 and then keeps the same bytes. -/
def dispatchFrame (opcode : Nat) (payload : List Nat) :
    Except WErr Frame × List (Nat × List Nat) :=
  match opcode with
  | 0x8 => (.ok .close, [(0x8, [])])
  | 0x9 => (.ok .ping, [(0xA, [])])
  | 0xA => (.ok .pong, [])
  | 0x1 =>
    if utf8Valid payload then (.ok (.text payload), [])
    else (.error .utf8, [])
  | 0x2 => (.ok (.binary payload), [])
  | _ => (.error (.invalidFrame ("Unknown opcode: " ++ toString opcode)), [(0x8, [])])

/-- Result of `WebSocket::read`: the reassembled frame (or error), and the
frames the call wrote while reading (pong replies, close frames). -/
structure RdRes where
  res : Except WErr Frame
  sent : List (Nat × List Nat)
  deriving DecidableEq

/-- The continuation loop of `WebSocket::read` (`src/ws/mod.rs`, lines
186-210) followed by the final dispatch.  The source's
`while let (fin, o, mut p) = self.read_frame().await? && !fin` runs its body
only while the newly read frame has `fin` clear, so when the `fin` frame
arrives the loop exits without appending that frame's payload — the model
reproduces this.  `fuel` bounds the recursion; every iteration of the source
loop consumes at least six input bytes, so `input.length` is always enough. -/
def wsReadLoop (maskPayload : Bool) (opcode0 : Nat) :
    Nat → List Nat → List Nat → RdRes
  | 0, _, _ => ⟨.error .io, []⟩
  | fuel + 1, input, payload =>
    match readFrame maskPayload input with
    | ⟨.error e, s⟩ => ⟨.error e, s⟩
    | ⟨.ok (fin, o, p, rest), s⟩ =>
      if fin then
        let d := dispatchFrame opcode0 payload
        ⟨d.1, s ++ d.2⟩
      else
        match o with
        | 0x0 =>
          let r := wsReadLoop maskPayload opcode0 fuel rest (payload ++ p)
          ⟨r.res, s ++ r.sent⟩
        | 0x8 =>
          let r := wsReadLoop maskPayload opcode0 fuel rest payload
          ⟨r.res, s ++ (0x8, []) :: r.sent⟩
        | 0x9 =>
          let r := wsReadLoop maskPayload opcode0 fuel rest payload
          ⟨r.res, s ++ (0xA, []) :: r.sent⟩
        | 0xA =>
          let r := wsReadLoop maskPayload opcode0 fuel rest payload
          ⟨r.res, s ++ r.sent⟩
        | _ =>
          ⟨.error (.invalidFrame ("Unknown opcode: " ++ toString opcode0)),
           s ++ [(0x8, [])]⟩

/-- `WebSocket::read` from `src/ws/mod.rs`, lines 183-239: read one frame;
if its `fin` bit is clear, run the continuation loop; finally dispatch on
the first frame's opcode with the accumulated payload. -/
def wsRead (maskPayload : Bool) (input : List Nat) : RdRes :=
  match readFrame maskPayload input with
  | ⟨.error e, s⟩ => ⟨.error e, s⟩
  | ⟨.ok (fin, opcode, payload, rest), s⟩ =>
    if fin then
      let d := dispatchFrame opcode payload
      ⟨d.1, s ++ d.2⟩
    else
      let r := wsReadLoop maskPayload opcode rest.length rest payload
      ⟨r.res, s ++ r.sent⟩

/-- A single RFC 6455 frame as a peer may send it: FIN bit, mask bit, opcode,
mask key and payload chosen freely.  Used to build received inputs in theorem
statements (the repository's own sender always sets FIN and derives the mask
bit from its role).  The header bytes are sums of disjoint bit fields. -/
def mkFrame (fin masked : Bool) (opcode : Nat) (maskKey payload : List Nat) :
    List Nat :=
  let b0 := (if fin then 0x80 else 0) + opcode
  let maskBit := if masked then 0x80 else 0
  let len := payload.length
  let lenBytes :=
    if len < 126 then [maskBit + len]
    else if len ≤ 0xFFFF then (maskBit + 126) :: be16 len
    else (maskBit + 127) :: be64 len
  b0 :: lenBytes ++ (if masked then maskKey ++ xorMask maskKey payload else payload)

/-! ## The blocking session transport (`src/session.rs`)

`Session::read_t` reads from a `TcpStream` with a read timeout, so a read of
the 2-byte frame header can also fail with `WouldBlock`/`TimedOut`.  The
input is therefore a list of items: a byte, or a timeout event `.to`
delivered to the first read that encounters it. -/

/-- One item of the blocking stream: a byte, or a read timeout. -/
inductive Item where
  | b (x : Nat)
  | to
  deriving DecidableEq

/-- Lift a byte string to a stream without timeouts. -/
def toItems (l : List Nat) : List Item :=
  l.map Item.b

/-- Stream-read errors: timeout (`WouldBlock`/`TimedOut`) or end of stream. -/
inductive TErr where
  | timeout
  | eof
  deriving DecidableEq

/-- Errors of `Session::read_t` (`crate::Error`): an I/O error or a JSON
decode error. -/
inductive RtErr where
  | io
  | json
  deriving DecidableEq

/-- `SessionMessage<T>` as produced by `read_t`: a parsed JSON message
(carrying the text bytes it was parsed from) or a binary payload. -/
inductive SMsg where
  | sessionMessage (text : List Nat)
  | binary (payload : List Nat)
  deriving DecidableEq

/-- Result of `Session::read_t`: `Ok(None)` when the connection should be
closed, `Ok(Some msg)` for an application message, or an error; `sent` lists
the raw byte writes the call performed (pings, pongs, close). -/
structure TRes where
  res : Except RtErr (Option SMsg)
  sent : List (List Nat)
  deriving DecidableEq

/-- The bytes `Session::send_close` writes (`src/session.rs`, line 137). -/
def closeBytes : List Nat := [0x88]

/-- The bytes `Session::send_ping` writes (`src/session.rs`, line 146). -/
def pingBytes : List Nat := [0x89, 0x00]

/-- The bytes `Session::send_pong` writes (`src/session.rs`, line 155). -/
def pongBytes : List Nat := [0x8A, 0x00]

/-- `read_exact` over the item stream: `n` bytes, or the first failure
(timeout if a timeout event is hit, end-of-stream otherwise). -/
def takeBytesE : Nat → List Item → Except TErr (List Nat × List Item)
  | 0, l => .ok ([], l)
  | _ + 1, [] => .error .eof
  | _ + 1, .to :: _ => .error .timeout
  | n + 1, .b x :: r =>
    match takeBytesE n r with
    | .ok (bs, rest) => .ok (x :: bs, rest)
    | .error e => .error e

/-- The conversion of the reassembled payload at the end of `Session::read_t`
(`src/session.rs`, lines 352-366): a Text message is decoded as UTF-8 and
then parsed as JSON (parse success is the parameter `jp`, abstracting
`serde_json::from_str::<T>`); bytes that are not valid UTF-8 are delivered
as `SessionMessage::Binary`. -/
def convertT (jp : List Nat → Bool) (msgType : Option Nat) (mp : List Nat) :
    TRes :=
  match msgType with
  | some 0x1 =>
    if utf8Valid mp then
      if jp mp then ⟨.ok (some (.sessionMessage mp)), []⟩
      else ⟨.error .json, []⟩
    else ⟨.ok (some (.binary mp)), []⟩
  | some 0x2 => ⟨.ok (some (.binary mp)), []⟩
  | _ => ⟨.ok none, []⟩

/-- Outcome of one iteration of the `read_t` loop: either the call returns
(`done`), or the loop continues with the remaining stream and updated
reassembly state, having written `sentNow` on the way (`next`). -/
inductive StepOut where
  | done (r : TRes)
  | next (rest : List Item) (msgPayload : List Nat) (expecting : Bool)
      (msgType : Option Nat) (sentNow : List (List Nat))

/-- The extended-payload-length read of `Session::read_t`
(`src/session.rs`, lines 250-259); stream failures propagate (`?`). -/
def parseExtLenT (len0 : Nat) (rest : List Item) : Except TErr (Nat × List Item) :=
  if len0 == 126 then
    match takeBytesE 2 rest with
    | .error e => .error e
    | .ok (b, r2) => .ok (beVal b, r2)
  else if len0 == 127 then
    match takeBytesE 8 rest with
    | .error e => .error e
    | .ok (b, r2) => .ok (beVal b, r2)
  else .ok (len0, rest)

/-- The part of one `read_t` iteration after the mask key has been read
(`src/session.rs`, lines 270-349): control-frame checks, payload read and
unmask, and the opcode dispatch. -/
def readTFrameBody (jp : List Nat → Bool) (fin : Bool) (opcode plen : Nat)
    (mask : List Nat) (r3 : List Item) (msgPayload : List Nat)
    (expecting : Bool) (msgType : Option Nat) : StepOut :=
  if (opcode == 0x8 || opcode == 0x9 || opcode == 0xA) && plen > 125 then
    .done ⟨.ok none, [closeBytes]⟩
  else if (opcode == 0x8 || opcode == 0x9 || opcode == 0xA) && !fin then
    .done ⟨.ok none, [closeBytes]⟩
  else
    match takeBytesE plen r3 with
    | .error _ => .done ⟨.error .io, []⟩
    | .ok (raw, r4) =>
      let payload := if plen > 0 then xorMask mask raw else raw
      match opcode with
      | 0x0 =>
        if !expecting then .done ⟨.ok none, [closeBytes]⟩
        else if fin then .done (convertT jp msgType (msgPayload ++ payload))
        else .next r4 (msgPayload ++ payload) expecting msgType []
      | 0x1 =>
        if expecting then .done ⟨.ok none, [closeBytes]⟩
        else if fin then .done (convertT jp (some 0x1) (msgPayload ++ payload))
        else .next r4 (msgPayload ++ payload) true (some 0x1) []
      | 0x2 =>
        if expecting then .done ⟨.ok none, [closeBytes]⟩
        else if fin then .done (convertT jp (some 0x2) (msgPayload ++ payload))
        else .next r4 (msgPayload ++ payload) true (some 0x2) []
      | 0x8 => .done ⟨.ok none, [closeBytes]⟩
      | 0x9 => .next r4 msgPayload expecting msgType [pongBytes]
      | 0xA => .next r4 msgPayload expecting msgType []
      | _ => .done ⟨.ok none, [closeBytes]⟩

/-- The tail of one `read_t` iteration after the 2-byte header has been
parsed (`src/session.rs`, lines 250-349): extended length, the mask key —
an unmasked frame sends a close and yields `Ok(None)` — then the
control-frame checks, payload and dispatch of `readTFrameBody`. -/
def readTStepRest (jp : List Nat → Bool) (fin : Bool) (opcode : Nat)
    (masked : Bool) (len0 : Nat) (rest : List Item) (msgPayload : List Nat)
    (expecting : Bool) (msgType : Option Nat) : StepOut :=
  match parseExtLenT len0 rest with
  | .error _ => .done ⟨.error .io, []⟩
  | .ok (plen, r2) =>
    if masked then
      match takeBytesE 4 r2 with
      | .error _ => .done ⟨.error .io, []⟩
      | .ok (mask, r3) =>
        readTFrameBody jp fin opcode plen mask r3 msgPayload expecting msgType
    else .done ⟨.ok none, [closeBytes]⟩

/-- One iteration of the frame loop of `Session::read_t` (`src/session.rs`,
lines 230-350).  A timeout while reading the 2-byte header sends a ping and
retries; end-of-stream there yields `Ok(None)`.  An unmasked frame, a
control frame with payload over 125 bytes or with FIN clear, a close frame,
an unexpected continuation and an unknown opcode all send a close frame and
yield `Ok(None)`.  Stream failures in any later read surface as I/O
errors. -/
def readTStep (jp : List Nat → Bool) (items : List Item) (msgPayload : List Nat)
    (expecting : Bool) (msgType : Option Nat) : StepOut :=
  match items with
  | [] => .done ⟨.ok none, []⟩
  | .to :: rest => .next rest msgPayload expecting msgType [pingBytes]
  | .b _ :: .to :: rest => .next rest msgPayload expecting msgType [pingBytes]
  | .b _ :: [] => .done ⟨.ok none, []⟩
  | .b h0 :: .b h1 :: rest =>
    readTStepRest jp ((h0 &&& 0x80) != 0) (h0 &&& 0x0F)
      ((h1 &&& 0x80) != 0) (h1 &&& 0x7F) rest msgPayload expecting msgType

/-- The frame loop of `Session::read_t`: iterate `readTStep`, collecting the
frames written along the way.  `fuel` bounds the recursion; every iteration
consumes at least one item of the stream, so `items.length` is always
enough. -/
def readTLoop (jp : List Nat → Bool) :
    Nat → List Item → List Nat → Bool → Option Nat → TRes
  | 0, _, _, _, _ => ⟨.error .io, []⟩
  | fuel + 1, items, msgPayload, expecting, msgType =>
    match readTStep jp items msgPayload expecting msgType with
    | .done r => r
    | .next rest mp exp mt sentNow =>
      let r := readTLoop jp fuel rest mp exp mt
      ⟨r.res, sentNow ++ r.sent⟩

/-- `Session::read_t` from `src/session.rs`, lines 221-369. -/
def readT (jp : List Nat → Bool) (items : List Item) : TRes :=
  readTLoop jp items.length items [] false none

/-- The stream configuration established by the blocking `Session::new`
(`src/session.rs`, lines 127-132): both timeouts are set to 10 seconds. -/
structure StreamConfig where
  readTimeoutSecs : Option Nat
  writeTimeoutSecs : Option Nat
  deriving DecidableEq

/-- The timeouts `Session::new` installs on its `TcpStream`. -/
def sessionNewConfig : StreamConfig :=
  { readTimeoutSecs := some 10, writeTimeoutSecs := some 10 }

/-! ## SHA-1 and base64

The handshake uses the `sha1` and `base64` crates.  These are embedded as
executable Lean functions implementing FIPS 180-1 SHA-1 and standard base64
with padding; a test vector from RFC 6455 §1.3 pins them down. -/

/-- Rotate a 32-bit word left by `n` bits. -/
def rotl32 (n x : Nat) : Nat :=
  ((x <<< n) ||| (x >>> (32 - n))) % 2 ^ 32

/-- Split a byte list into big-endian 32-bit words (4 bytes each). -/
def toWords32 : List Nat → List Nat
  | a :: b :: c :: d :: rest => (((a * 256 + b) * 256 + c) * 256 + d) :: toWords32 rest
  | _ => []

/-- Extend the 16-word block to the 80-word SHA-1 message schedule:
`n` more words, each `rotl1 (w[i-3] xor w[i-8] xor w[i-14] xor w[i-16])`. -/
def sha1Extend (acc : List Nat) : Nat → List Nat
  | 0 => acc
  | n + 1 =>
    let i := acc.length
    sha1Extend
      (acc ++ [rotl32 1 (acc.getD (i - 3) 0 ^^^ acc.getD (i - 8) 0 ^^^
                         acc.getD (i - 14) 0 ^^^ acc.getD (i - 16) 0)]) n

/-- The SHA-1 round function, by round index. -/
def sha1F (i b c d : Nat) : Nat :=
  if i < 20 then (b &&& c) ||| ((b ^^^ 0xFFFFFFFF) &&& d)
  else if i < 40 then b ^^^ c ^^^ d
  else if i < 60 then (b &&& c) ||| (b &&& d) ||| (c &&& d)
  else b ^^^ c ^^^ d

/-- The SHA-1 round constants, by round index. -/
def sha1K (i : Nat) : Nat :=
  if i < 20 then 0x5A827999
  else if i < 40 then 0x6ED9EBA1
  else if i < 60 then 0x8F1BBCDC
  else 0xCA62C1D6

/-- One SHA-1 compression: fold the 80 rounds over one 64-byte block and add
the result to the running state `(h0, h1, h2, h3, h4)`. -/
def sha1Compress (h : Nat × Nat × Nat × Nat × Nat) (block : List Nat) :
    Nat × Nat × Nat × Nat × Nat :=
  let w := sha1Extend (toWords32 block) 64
  let (h0, h1, h2, h3, h4) := h
  let fin := (List.range 80).foldl
    (fun st i =>
      let (a, b, c, d, e) := st
      let temp := (rotl32 5 a + sha1F i b c d + e + sha1K i + w.getD i 0) % 2 ^ 32
      (temp, a, rotl32 30 b, c, d))
    (h0, h1, h2, h3, h4)
  let (a, b, c, d, e) := fin
  ((h0 + a) % 2 ^ 32, (h1 + b) % 2 ^ 32, (h2 + c) % 2 ^ 32,
   (h3 + d) % 2 ^ 32, (h4 + e) % 2 ^ 32)

/-- SHA-1 padding: a `0x80` byte, zeros to 56 mod 64, then the bit length
as a big-endian 64-bit integer. -/
def sha1Pad (msg : List Nat) : List Nat :=
  msg ++ 0x80 :: List.replicate ((55 + 64 - msg.length % 64) % 64) 0
      ++ be64 (8 * msg.length)

/-- Split a padded message into 64-byte blocks (`fuel` bounds the recursion
structurally; one unit per block suffices, so the list length is enough). -/
def chunk64Go : Nat → List Nat → List (List Nat)
  | _, [] => []
  | 0, _ :: _ => []
  | fuel + 1, l@(_ :: _) => l.take 64 :: chunk64Go fuel (l.drop 64)

/-- Split a padded message into 64-byte blocks. -/
def chunk64 (l : List Nat) : List (List Nat) :=
  chunk64Go l.length l

/-- Big-endian 4-byte encoding of a 32-bit word. -/
def be32 (n : Nat) : List Nat :=
  [n / 2 ^ 24 % 256, n / 2 ^ 16 % 256, n / 2 ^ 8 % 256, n % 256]

/-- SHA-1 of a byte string, as its 20-byte digest. -/
def sha1 (msg : List Nat) : List Nat :=
  let st := (chunk64 (sha1Pad msg)).foldl sha1Compress
    (0x67452301, 0xEFCDAB89, 0x98BADCFE, 0x10325476, 0xC3D2E1F0)
  let (h0, h1, h2, h3, h4) := st
  be32 h0 ++ be32 h1 ++ be32 h2 ++ be32 h3 ++ be32 h4

/-- The base64 alphabet (standard, as in `base64::engine::general_purpose::STANDARD`). -/
def b64Alphabet : List Nat :=
  ("ABCDEFGHIJKLMNOPQRSTUVWXYZabcdefghijklmnopqrstuvwxyz0123456789+/".toList).map
    Char.toNat

/-- The character (as a byte) for a 6-bit group. -/
def b64Char (n : Nat) : Nat :=
  b64Alphabet.getD n 0

/-- Standard base64 encoding with `=` padding, producing ASCII bytes. -/
def base64Bytes : List Nat → List Nat
  | a :: b :: c :: rest =>
    b64Char (a / 4) :: b64Char (a % 4 * 16 + b / 16) ::
    b64Char (b % 16 * 4 + c / 64) :: b64Char (c % 64) :: base64Bytes rest
  | [a, b] =>
    [b64Char (a / 4), b64Char (a % 4 * 16 + b / 16), b64Char (b % 16 * 4), 61]
  | [a] => [b64Char (a / 4), b64Char (a % 4 * 16), 61, 61]
  | [] => []

/-- The bytes of a (pure-ASCII) Lean string, as `str::as_bytes`. -/
def strBytes (s : String) : List Nat :=
  s.toList.map Char.toNat

/-- A pure-ASCII byte list rendered as a string. -/
def bytesToStr (l : List Nat) : String :=
  String.mk (l.map Char.ofNat)

/-- The WebSocket GUID `258EAFA5-E914-47DA-95CA-C5AB0DC85B11`, as bytes. -/
def guidBytes : List Nat :=
  strBytes "258EAFA5-E914-47DA-95CA-C5AB0DC85B11"

/-- The `Sec-WebSocket-Accept` value the server computes from the received
`Sec-WebSocket-Key` header value (`src/session.rs`, lines 101-106, and
identically `src/handshake.rs`, lines 67-70):
`base64(SHA1(key ++ GUID))`. -/
def serverAcceptKey (keyBytes : List Nat) : List Nat :=
  base64Bytes (sha1 (keyBytes ++ guidBytes))

/-- The expected accept digest the client computes from its own 16 random
key bytes in `Session::connect` (`src/handshake.rs`, lines 104-105 and
148-154): the key header value is `base64(K)`, the expected accept is
`base64(SHA1(base64(K) ++ GUID))`. -/
def clientExpectedAccept (key16 : List Nat) : List Nat :=
  base64Bytes (sha1 (base64Bytes key16 ++ guidBytes))

/-- The accept verification in `Session::connect` (`src/handshake.rs`,
lines 155-159): the connect proceeds past verification exactly when the
returned `Sec-WebSocket-Accept` header equals the expected digest. -/
def clientAcceptCheck (key16 : List Nat) (secAccept : Option (List Nat)) : Bool :=
  secAccept == some (clientExpectedAccept key16)

/-! ## Server-side handshake (`src/handshake.rs` async, `src/session.rs` sync)

A handshake request is modelled as its request line plus the raw header
lines (each line as read by `read_line`, without the final terminator, the
way `trim`/`split_once` see it). -/

/-- A parsed-enough HTTP upgrade request: the request line and the header
lines that follow it (each line as `read_line` delivers it, terminator
included or not — the models trim exactly where the source does). -/
structure HsReq where
  requestLine : String
  headerLines : List String

/-- ASCII lowercasing of one character, as Rust's `to_lowercase` /
`eq_ignore_ascii_case` act on the ASCII header values involved. -/
def lowerChar (c : Char) : Char :=
  if 65 ≤ c.toNat ∧ c.toNat ≤ 90 then Char.ofNat (c.toNat + 32) else c

/-- Lowercase a character list. -/
def lowerL (l : List Char) : List Char :=
  l.map lowerChar

/-- Whitespace as trimmed by `str::trim` / `trim_end` (the ASCII whitespace
occurring in HTTP header lines). -/
def isWsChar (c : Char) : Bool :=
  c == ' ' || c == '\t' || c == '\n' || c == '\r'

/-- Rust's `str::trim` on a character list. -/
def trimL (l : List Char) : List Char :=
  ((l.dropWhile isWsChar).reverse.dropWhile isWsChar).reverse

/-- Rust's `str::trim_end` on a character list. -/
def trimRightL (l : List Char) : List Char :=
  (l.reverse.dropWhile isWsChar).reverse

/-- Rust's `str::split_once(':')`: the parts before and after the first
colon, or `none` when there is no colon. -/
def splitOnceL : List Char → Option (List Char × List Char)
  | [] => none
  | c :: rest =>
    if c == ':' then some ([], rest)
    else (splitOnceL rest).map (fun p => (c :: p.1, p.2))

/-- Rust's `str::eq_ignore_ascii_case`. -/
def eqIgnoreAsciiCase (a b : List Char) : Bool :=
  lowerL a == lowerL b

/-- Whether `l` starts with the pattern `pat` (Rust's `str::starts_with`). -/
def startsSeq : List Char → List Char → Bool
  | [], _ => true
  | _ :: _, [] => false
  | p :: ps, c :: cs => p == c && startsSeq ps cs

/-- Whether `pat` occurs as a contiguous subsequence of `l`
(Rust's `str::contains` for a literal pattern). -/
def containsSeq (pat : List Char) : List Char → Bool
  | [] => pat.isEmpty
  | c :: cs => startsSeq pat (c :: cs) || containsSeq pat cs

/-- `HashMap::insert` on an association list: replace the value under an
existing key, otherwise append. -/
def insertHeader (hs : List (List Char × List Char)) (k v : List Char) :
    List (List Char × List Char) :=
  if hs.any (fun p => p.1 == k) then
    hs.map (fun p => if p.1 == k then (k, v) else p)
  else hs ++ [(k, v)]

/-- `HashMap::get` on the association list. -/
def headerLookup (hs : List (List Char × List Char)) (k : List Char) :
    Option (List Char) :=
  (hs.find? (fun p => p.1 == k)).map (fun p => p.2)

/-- The header-parsing loop shared by both server handshakes: for each line,
`split_once(':')`, keys trimmed and lowercased, values trimmed; lines
without a colon are skipped. -/
def parseHeaders (lines : List String) : List (List Char × List Char) :=
  lines.foldl
    (fun hs line =>
      match splitOnceL line.toList with
      | some (k, v) => insertHeader hs (lowerL (trimL k)) (trimL v)
      | none => hs)
    []

/-- The bytes of a character list (`str::as_bytes` for the ASCII data
involved). -/
def charBytes (l : List Char) : List Nat :=
  l.map Char.toNat

/-- Whether the `Connection` header is present and its lowercased value
contains the substring `upgrade` (`src/session.rs`, lines 75-79). -/
def connOk (hs : List (List Char × List Char)) : Bool :=
  ((headerLookup hs "connection".toList).map
    (fun v => containsSeq "upgrade".toList (lowerL v))).getD false

/-- Whether `Sec-WebSocket-Version`, when present, is `13` after trimming
(`src/session.rs`, lines 92-99: absence is accepted, any other value is an
error). -/
def versionOk (hs : List (List Char × List Char)) : Bool :=
  match headerLookup hs "sec-websocket-version".toList with
  | none => true
  | some ver => trimL ver == "13".toList

/-- Successful outcomes of a server handshake: a reply to a `HEAD`
health-check, a plain-HTTP health-check reply, or a completed WebSocket
upgrade carrying the accept digest. -/
inductive HsOutcome where
  | headOk
  | healthOk
  | upgraded (accept : List Nat)
  deriving DecidableEq

/-- Result of a server handshake: the `std::io::Result` value (errors carry
the message of the `InvalidData` error) and everything written to the
stream. -/
structure HsRes where
  res : Except String HsOutcome
  written : String
  deriving DecidableEq

/-- The async server handshake `handle_websocket_handshake` from
`src/handshake.rs`, lines 11-82: answer `HEAD` with an empty 200; reject a
non-`GET` method; answer a non-WebSocket upgrade with a plain 200 `OK`;
otherwise require `Sec-WebSocket-Key` and reply 101 with the accept digest.
This version checks neither `Connection` nor `Sec-WebSocket-Version`. -/
def asyncHandshake (req : HsReq) : HsRes :=
  let line := trimRightL req.requestLine.toList
  if startsSeq "HEAD".toList line then
    ⟨.ok .headOk, "HTTP/1.1 200 OK\r\nContent-Length: 0\r\n\r\n"⟩
  else if !(startsSeq "GET".toList line) then
    ⟨.error "Invalid HTTP method", ""⟩
  else
    let hs := parseHeaders req.headerLines
    if ((headerLookup hs "upgrade".toList).map
        (fun v => !(eqIgnoreAsciiCase v "websocket".toList))).getD true then
      ⟨.ok .healthOk, "HTTP/1.1 200 OK\r\nContent-Length: 2\r\n\r\nOK"⟩
    else
      match headerLookup hs "sec-websocket-key".toList with
      | none => ⟨.error "Missing key", ""⟩
      | some key =>
        let accept := serverAcceptKey (charBytes key)
        ⟨.ok (.upgraded accept),
         "HTTP/1.1 101 Switching Protocols\r\nUpgrade: websocket\r\n" ++
         "Connection: Upgrade\r\nSec-WebSocket-Accept: " ++ bytesToStr accept ++
         "\r\n\r\n"⟩

/-- The blocking server handshake `handshake::handle_websocket_handshake`
from `src/session.rs`, lines 21-120: as the async one, but it also requires
`Connection: ...upgrade...` (case-insensitive substring) and
`Sec-WebSocket-Version: 13` when that header is present. -/
def syncHandshake (req : HsReq) : HsRes :=
  let line := trimRightL req.requestLine.toList
  if startsSeq "HEAD".toList line then
    ⟨.ok .headOk, "HTTP/1.1 200 OK\r\nContent-Length: 0\r\n\r\n"⟩
  else if !(startsSeq "GET".toList line) then
    ⟨.error ("Invalid HTTP method: " ++ String.mk line), ""⟩
  else
    let hs := parseHeaders req.headerLines
    if !(((headerLookup hs "upgrade".toList).map
        (fun v => eqIgnoreAsciiCase v "websocket".toList)).getD false) then
      ⟨.ok .healthOk,
       "HTTP/1.1 200 OK\r\nContent-Type: text/plain\r\nContent-Length: 2\r\n\r\nOK"⟩
    else if !(connOk hs) then
      ⟨.error "Missing or invalid Connection header", ""⟩
    else
      match headerLookup hs "sec-websocket-key".toList with
      | none => ⟨.error "Missing Sec-WebSocket-Key", ""⟩
      | some key =>
        if !(versionOk hs) then
          ⟨.error "Unsupported Sec-WebSocket-Version", ""⟩
        else
          let accept := serverAcceptKey (charBytes key)
          ⟨.ok (.upgraded accept),
           "HTTP/1.1 101 Switching Protocols\r\nUpgrade: websocket\r\n" ++
           "Connection: Upgrade\r\nSec-WebSocket-Accept: " ++ bytesToStr accept ++
           "\r\n\r\n"⟩

/-- The connection state `Session::handshake` builds (`src/handshake.rs`,
lines 84-96): server role, so outgoing frames are not masked. -/
structure SessionConn where
  maskPayload : Bool
  deriving DecidableEq

/-- `Session::handshake` from `src/handshake.rs`, lines 84-96: run the async
server handshake; on any `Ok` outcome — including the `HEAD` health-check
and the plain-HTTP health-check — construct a session over the stream with
`mask_payload = false`. -/
def sessionHandshake (req : HsReq) : Except String SessionConn × String :=
  let r := asyncHandshake req
  (r.res.map (fun _ => ⟨false⟩), r.written)

/-- Whether a handshake result is a completed WebSocket upgrade. -/
def isUpgraded : Except String HsOutcome → Bool
  | .ok (.upgraded _) => true
  | _ => false

/-- Whether a handshake result is an error. -/
def isHsErr : Except String HsOutcome → Bool
  | .error _ => true
  | _ => false

/-! ## Request/response correlation (session RPC layer)

Modelled from the spec: the async session multiplexer (`request<M>`,
`start_receiver`, the broadcast fan-out of `(id, is_error, payload)`
triples) is declared in `src/lib.rs` and used by `src/server.rs`, but its
implementation is not among the sources.  Per spec §4.4, the receiver
publishes every inbound `response`/`error` as `(id, is_error, payload)` to
a fan-out channel that every subscribed caller sees in order, and a caller
waiting in `request<M>` receives messages, discarding those whose id is not
its own, until the first match. -/

/-- Modelled from the spec: the receive loop of `request<M>` (spec §4.4
step 4) over the ordered list of triples published while the caller is
subscribed — skip every triple whose id differs from the caller's, return
the `(is_error, payload)` of the first match. -/
def requestReceive {α : Type} (id : Nat) : List (Nat × Bool × α) → Option (Bool × α)
  | [] => none
  | (i, e, v) :: rest => if i == id then some (e, v) else requestReceive id rest

/-- Whether a `read` result is an `InvalidFrame` error (used to state what
an error is not). -/
def isInvalidFrameRes : Except WErr Frame → Bool
  | .error (.invalidFrame _) => true
  | _ => false

/-! ## Helper lemmas -/

theorem land127_of_lt {b : Nat} (h : b < 128) : b &&& 127 = b := by
  have : ∀ x < 128, x &&& 127 = x := by decide
  exact this b h

theorem land128_of_lt {b : Nat} (h : b < 128) : b &&& 128 = 0 := by
  have : ∀ x < 128, x &&& 128 = 0 := by decide
  exact this b h

theorem add128_land127 {b : Nat} (h : b < 128) : (128 + b) &&& 127 = b := by
  have : ∀ x < 128, (128 + x) &&& 127 = x := by decide
  exact this b h

theorem add128_land128 {b : Nat} (h : b < 128) : (128 + b) &&& 128 = 128 := by
  have : ∀ x < 128, (128 + x) &&& 128 = 128 := by decide
  exact this b h

theorem takeB_exact {a : List Nat} {n : Nat} (h : a.length = n) (r : List Nat) :
    takeB n (a ++ r) = some (a, r) := by
  have hle : n ≤ a.length + r.length := by omega
  simp [takeB, hle, List.take_left' h, List.drop_left' h]

theorem xorMaskFrom_length (key : List Nat) (i : Nat) (p : List Nat) :
    (xorMaskFrom key i p).length = p.length := by
  induction p generalizing i with
  | nil => rfl
  | cons b rest ih => simp [xorMaskFrom, ih]

theorem xorMask_length (key p : List Nat) : (xorMask key p).length = p.length :=
  xorMaskFrom_length key 0 p

theorem xorMaskFrom_involutive (key : List Nat) (i : Nat) (p : List Nat) :
    xorMaskFrom key i (xorMaskFrom key i p) = p := by
  induction p generalizing i with
  | nil => rfl
  | cons b rest ih =>
    simp [xorMaskFrom, ih, Nat.xor_cancel_right]

theorem xorMask_involutive (key p : List Nat) :
    xorMask key (xorMask key p) = p :=
  xorMaskFrom_involutive key 0 p

theorem beVal_be16 {n : Nat} (h : n ≤ 0xFFFF) : beVal (be16 n) = n := by
  simp only [be16, beVal, List.foldl]
  omega

theorem beVal_be64 (n : Nat) : beVal (be64 n) = n % 2 ^ 64 := by
  simp only [be64, beVal, List.foldl]
  omega

theorem toItems_append (a b : List Nat) :
    toItems (a ++ b) = toItems a ++ toItems b := by
  simp [toItems]

theorem takeBytesE_exact {a : List Nat} {n : Nat} (h : a.length = n) (r : List Item) :
    takeBytesE n (toItems a ++ r) = .ok (a, r) := by
  induction a generalizing n with
  | nil => subst h; rfl
  | cons x t ih =>
    subst h
    simp only [toItems, List.map_cons, List.cons_append, List.length_cons]
    rw [show (Item.b x :: (t.map Item.b ++ r)) = Item.b x :: (toItems t ++ r) from rfl]
    simp [takeBytesE, ih rfl]

theorem takeB_cons2 (x y : Nat) (t : List Nat) :
    takeB 2 (x :: y :: t) = some ([x, y], t) :=
  @takeB_exact [x, y] 2 rfl t

theorem toItems_cons (a : Nat) (l : List Nat) :
    toItems (a :: l) = .b a :: toItems l := rfl

theorem unmask_read (key p : List Nat) :
    (if 0 < p.length then xorMask key (xorMask key p) else xorMask key p) = p := by
  rcases p with _ | ⟨a, t⟩
  · simp [xorMask, xorMaskFrom]
  · simp [xorMask_involutive]

theorem parseExtLen_small {len0 : Nat} (h : len0 < 126) (r1 : List Nat) :
    parseExtLen len0 r1 = some (len0, r1) := by
  simp only [parseExtLen]
  rw [if_neg (by simp; omega), if_neg (by simp; omega)]

theorem parseExtLen_be16 (n : Nat) (r : List Nat) :
    parseExtLen 126 (be16 n ++ r) = some (beVal (be16 n), r) := by
  simp [parseExtLen, @takeB_exact (be16 n) 2 rfl r]

theorem parseExtLen_be64 (n : Nat) (r : List Nat) :
    parseExtLen 127 (be64 n ++ r) = some (beVal (be64 n), r) := by
  simp [parseExtLen, @takeB_exact (be64 n) 8 rfl r]

theorem readMaskPayload_exact (fin : Bool) (opcode : Nat) (key p rest : List Nat)
    (hkey : key.length = 4) :
    readMaskPayload fin opcode p.length (key ++ (xorMask key p ++ rest))
      = ⟨.ok (fin, opcode, p, rest), []⟩ := by
  have hmain : takeB 4 (key ++ (xorMask key p ++ rest))
      = some (key, xorMask key p ++ rest) := by
    rw [← List.append_assoc, List.append_assoc]
    exact takeB_exact hkey _
  simp [readMaskPayload, hmain, takeB_exact (xorMask_length key p) rest, unmask_read]

/-- Bit-field facts about the header byte `(if fin then 0x80 else 0) + opcode`
of a frame with a small opcode. -/
theorem headerByteFin {opcode : Nat} (fin : Bool) (hop : opcode < 16) :
    (((if fin then (128 : Nat) else 0) + opcode) &&& 128 != 0) = fin := by
  have ha : ∀ x < 16, (128 + x) &&& 128 = 128 := by decide
  have hb : ∀ x < 16, x &&& 128 = 0 := by decide
  cases fin <;> simp [ha opcode hop, hb opcode hop]

theorem headerByteOp {opcode : Nat} (fin : Bool) (hop : opcode < 16) :
    ((if fin then (128 : Nat) else 0) + opcode) &&& 15 = opcode := by
  have ha : ∀ x < 16, (128 + x) &&& 15 = x := by decide
  have hb : ∀ x < 16, x &&& 15 = x := by decide
  cases fin <;> simp [ha opcode hop, hb opcode hop]

theorem readFrame_cons (mp : Bool) (b0 b1 : Nat) (t : List Nat) :
    readFrame mp (b0 :: b1 :: t)
      = readFrameRest mp ((b0 &&& 0x80) != 0) (b0 &&& 0x0F)
          ((b1 &&& 0x80) != 0) (b1 &&& 0x7F) t := by
  simp [readFrame, takeB_cons2]

theorem readFrameRest_masked {len0 plen : Nat} {r1 r2 : List Nat}
    (mp fin : Bool) (opcode : Nat)
    (h1 : parseExtLen len0 r1 = some (plen, r2)) :
    readFrameRest mp fin opcode true len0 r1
      = readMaskPayload fin opcode plen r2 := by
  simp [readFrameRest, h1]

theorem readFrameRest_unmasked_server {len0 plen : Nat} {r1 r2 : List Nat}
    (fin : Bool) (opcode : Nat)
    (h1 : parseExtLen len0 r1 = some (plen, r2)) :
    readFrameRest false fin opcode false len0 r1
      = ⟨.error (.invalidFrame "Received unmasked frame from client"), [(0x8, [])]⟩ := by
  simp [readFrameRest, h1]

/-- Decoding a masked frame built by a compliant sender: `read_frame`
recovers the FIN bit, the opcode and the unmasked payload, and consumes
exactly the frame.  (This is the mask-on half of the codec round-trip.) -/
theorem readFrame_mkFrame_masked (mp fin : Bool) (opcode : Nat)
    (key payload rest : List Nat) (hkey : key.length = 4) (hop : opcode < 16)
    (hlen : payload.length < 2 ^ 64) :
    readFrame mp (mkFrame fin true opcode key payload ++ rest)
      = ⟨.ok (fin, opcode, payload, rest), []⟩ := by
  have hfin := headerByteFin fin hop
  have hopc := headerByteOp fin hop
  have hmp := readMaskPayload_exact fin opcode key payload rest hkey
  rcases Nat.lt_or_ge payload.length 126 with h1 | h1
  · have hb1 : (128 + payload.length) &&& 127 = payload.length := add128_land127 (by omega)
    have hb1m : (128 + payload.length) &&& 128 = 128 := add128_land128 (by omega)
    have hshape : mkFrame fin true opcode key payload ++ rest
        = ((if fin then 0x80 else 0) + opcode) :: (128 + payload.length)
            :: (key ++ (xorMask key payload ++ rest)) := by
      simp [mkFrame, if_pos h1]
    rw [hshape, readFrame_cons, hb1, hb1m, hfin, hopc,
      show ((128 : Nat) != 0) = true from rfl,
      readFrameRest_masked mp fin opcode (parseExtLen_small h1 _), hmp]
  · rcases Nat.lt_or_ge 0xFFFF payload.length with h2 | h2
    · have hv64 : beVal (be64 payload.length) = payload.length := by
        rw [beVal_be64]; omega
      have hshape : mkFrame fin true opcode key payload ++ rest
          = ((if fin then 0x80 else 0) + opcode) :: 255
              :: (be64 payload.length ++ (key ++ (xorMask key payload ++ rest))) := by
        simp [mkFrame, if_neg (by omega : ¬ payload.length < 126),
          if_neg (by omega : ¬ payload.length ≤ 0xFFFF)]
      rw [hshape, readFrame_cons,
        show (255 : Nat) &&& 0x7F = 127 from by decide,
        show (((255 : Nat) &&& 0x80) != 0) = true from by decide, hfin, hopc,
        readFrameRest_masked mp fin opcode (parseExtLen_be64 payload.length _),
        hv64, hmp]
    · have hv16 : beVal (be16 payload.length) = payload.length := beVal_be16 h2
      have hshape : mkFrame fin true opcode key payload ++ rest
          = ((if fin then 0x80 else 0) + opcode) :: 254
              :: (be16 payload.length ++ (key ++ (xorMask key payload ++ rest))) := by
        simp [mkFrame, if_neg (by omega : ¬ payload.length < 126), if_pos h2]
      rw [hshape, readFrame_cons,
        show (254 : Nat) &&& 0x7F = 126 from by decide,
        show (((254 : Nat) &&& 0x80) != 0) = true from by decide, hfin, hopc,
        readFrameRest_masked mp fin opcode (parseExtLen_be16 payload.length _),
        hv16, hmp]

theorem parseExtLenT_small {len0 : Nat} (h : len0 < 126) (r1 : List Item) :
    parseExtLenT len0 r1 = .ok (len0, r1) := by
  simp only [parseExtLenT]
  rw [if_neg (by simp; omega), if_neg (by simp; omega)]

theorem parseExtLenT_be16 (n : Nat) (r : List Item) :
    parseExtLenT 126 (toItems (be16 n) ++ r) = .ok (beVal (be16 n), r) := by
  simp [parseExtLenT, @takeBytesE_exact (be16 n) 2 rfl r]

theorem parseExtLenT_be64 (n : Nat) (r : List Item) :
    parseExtLenT 127 (toItems (be64 n) ++ r) = .ok (beVal (be64 n), r) := by
  simp [parseExtLenT, @takeBytesE_exact (be64 n) 8 rfl r]

/-- The post-mask part of a `read_t` iteration on a control frame violating
the length or FIN constraint resolves to a close and `Ok(None)`. -/
theorem readTFrameBody_violation (jp : List Nat → Bool) (fin : Bool)
    (opcode plen : Nat) (mask : List Nat) (r3 : List Item) (mp : List Nat)
    (exp : Bool) (mt : Option Nat)
    (hctl : (opcode == 0x8 || opcode == 0x9 || opcode == 0xA) = true)
    (hviol : 125 < plen ∨ fin = false) :
    readTFrameBody jp fin opcode plen mask r3 mp exp mt
      = .done ⟨.ok none, [closeBytes]⟩ := by
  by_cases hp : 125 < plen
  · simp [readTFrameBody, hctl, hp]
  · have hfin : fin = false := by
      rcases hviol with h | h
      · omega
      · exact h
    subst hfin
    simp [readTFrameBody, hctl, hp]

/-- The post-mask part of a `read_t` iteration on a complete Text frame
with no message in progress resolves to the final conversion. -/
theorem readTFrameBody_text (jp : List Nat → Bool) (key p : List Nat)
    (restI : List Item) (mp : List Nat) (mt : Option Nat) :
    readTFrameBody jp true 0x1 p.length key (toItems (xorMask key p) ++ restI)
        mp false mt
      = .done (convertT jp (some 0x1) (mp ++ p)) := by
  simp [readTFrameBody, takeBytesE_exact (xorMask_length key p) restI, unmask_read]

theorem readTStep_cons (jp : List Nat → Bool) (h0 h1 : Nat) (rest : List Item)
    (mp : List Nat) (exp : Bool) (mt : Option Nat) :
    readTStep jp (.b h0 :: .b h1 :: rest) mp exp mt
      = readTStepRest jp ((h0 &&& 0x80) != 0) (h0 &&& 0x0F)
          ((h1 &&& 0x80) != 0) (h1 &&& 0x7F) rest mp exp mt := rfl

theorem readTStepRest_masked {len0 plen : Nat} {rest r2 r3 : List Item}
    {mask : List Nat} (jp : List Nat → Bool) (fin : Bool) (opcode : Nat)
    (mp : List Nat) (exp : Bool) (mt : Option Nat)
    (h1 : parseExtLenT len0 rest = .ok (plen, r2))
    (h2 : takeBytesE 4 r2 = .ok (mask, r3)) :
    readTStepRest jp fin opcode true len0 rest mp exp mt
      = readTFrameBody jp fin opcode plen mask r3 mp exp mt := by
  simp [readTStepRest, h1, h2]

theorem readTStepRest_unmasked {len0 plen : Nat} {rest r2 : List Item}
    (jp : List Nat → Bool) (fin : Bool) (opcode : Nat)
    (mp : List Nat) (exp : Bool) (mt : Option Nat)
    (h1 : parseExtLenT len0 rest = .ok (plen, r2)) :
    readTStepRest jp fin opcode false len0 rest mp exp mt
      = .done ⟨.ok none, [closeBytes]⟩ := by
  simp [readTStepRest, h1]

/-- One `read_t` iteration on a frame whose mask bit is clear — any FIN bit,
opcode and payload — sends a close frame and returns `Ok(None)`
(`src/session.rs`, lines 261-268). -/
theorem readTStep_unmasked (jp : List Nat → Bool) (fin : Bool) (opcode : Nat)
    (payload : List Nat) (restI : List Item) (mp : List Nat) (exp : Bool)
    (mt : Option Nat) :
    readTStep jp (toItems (mkFrame fin false opcode [] payload) ++ restI) mp exp mt
      = .done ⟨.ok none, [closeBytes]⟩ := by
  rcases Nat.lt_or_ge payload.length 126 with h1 | h1
  · have hl : payload.length &&& 127 = payload.length := land127_of_lt (by omega)
    have hm : payload.length &&& 128 = 0 := land128_of_lt (by omega)
    have hshape : toItems (mkFrame fin false opcode [] payload) ++ restI
        = .b ((if fin then 0x80 else 0) + opcode) :: .b payload.length
            :: (toItems payload ++ restI) := by
      simp [mkFrame, if_pos h1, toItems]
    rw [hshape, readTStep_cons, hl, hm,
      show ((0 : Nat) != 0) = false from rfl,
      readTStepRest_unmasked jp _ _ mp exp mt (parseExtLenT_small h1 _)]
  · rcases Nat.lt_or_ge 0xFFFF payload.length with h2 | h2
    · have hshape : toItems (mkFrame fin false opcode [] payload) ++ restI
          = .b ((if fin then 0x80 else 0) + opcode) :: .b 127
              :: (toItems (be64 payload.length) ++ (toItems payload ++ restI)) := by
        simp [mkFrame, if_neg (by omega : ¬ payload.length < 126),
          if_neg (by omega : ¬ payload.length ≤ 0xFFFF), toItems, List.append_assoc]
      rw [hshape, readTStep_cons,
        show (127 : Nat) &&& 0x7F = 127 from by decide,
        show (((127 : Nat) &&& 0x80) != 0) = false from by decide,
        readTStepRest_unmasked jp _ _ mp exp mt (parseExtLenT_be64 payload.length _)]
    · have hshape : toItems (mkFrame fin false opcode [] payload) ++ restI
          = .b ((if fin then 0x80 else 0) + opcode) :: .b 126
              :: (toItems (be16 payload.length) ++ (toItems payload ++ restI)) := by
        simp [mkFrame, if_neg (by omega : ¬ payload.length < 126), if_pos h2,
          toItems, List.append_assoc]
      rw [hshape, readTStep_cons,
        show (126 : Nat) &&& 0x7F = 126 from by decide,
        show (((126 : Nat) &&& 0x80) != 0) = false from by decide,
        readTStepRest_unmasked jp _ _ mp exp mt (parseExtLenT_be16 payload.length _)]

/-- One `read_t` iteration on a masked frame built by a compliant sender
reduces to `readTFrameBody` on the parsed fields. -/
theorem readTStep_mkFrame (jp : List Nat → Bool) (fin : Bool) (opcode : Nat)
    (key payload : List Nat) (restI : List Item)
    (mp : List Nat) (exp : Bool) (mt : Option Nat)
    (hkey : key.length = 4) (hop : opcode < 16) (hlen : payload.length < 2 ^ 64) :
    readTStep jp (toItems (mkFrame fin true opcode key payload) ++ restI) mp exp mt
      = readTFrameBody jp fin opcode payload.length key
          (toItems (xorMask key payload) ++ restI) mp exp mt := by
  have hfin := headerByteFin fin hop
  have hopc := headerByteOp fin hop
  have hmask : takeBytesE 4 (toItems key ++ (toItems (xorMask key payload) ++ restI))
      = .ok (key, toItems (xorMask key payload) ++ restI) := takeBytesE_exact hkey _
  rcases Nat.lt_or_ge payload.length 126 with h1 | h1
  · have hb1 : (128 + payload.length) &&& 127 = payload.length := add128_land127 (by omega)
    have hb1m : (128 + payload.length) &&& 128 = 128 := add128_land128 (by omega)
    have hshape : toItems (mkFrame fin true opcode key payload) ++ restI
        = .b ((if fin then 0x80 else 0) + opcode) :: .b (128 + payload.length)
            :: (toItems key ++ (toItems (xorMask key payload) ++ restI)) := by
      simp [mkFrame, if_pos h1, toItems, List.append_assoc]
    rw [hshape, readTStep_cons, hb1, hb1m, hfin, hopc,
      show ((128 : Nat) != 0) = true from rfl,
      readTStepRest_masked jp fin opcode mp exp mt (parseExtLenT_small h1 _) hmask]
  · rcases Nat.lt_or_ge 0xFFFF payload.length with h2 | h2
    · have hv64 : beVal (be64 payload.length) = payload.length := by
        rw [beVal_be64]; omega
      have hshape : toItems (mkFrame fin true opcode key payload) ++ restI
          = .b ((if fin then 0x80 else 0) + opcode) :: .b 255
              :: (toItems (be64 payload.length) ++
                  (toItems key ++ (toItems (xorMask key payload) ++ restI))) := by
        simp [mkFrame, if_neg (by omega : ¬ payload.length < 126),
          if_neg (by omega : ¬ payload.length ≤ 0xFFFF), toItems, List.append_assoc]
      rw [hshape, readTStep_cons,
        show (255 : Nat) &&& 0x7F = 127 from by decide,
        show (((255 : Nat) &&& 0x80) != 0) = true from by decide, hfin, hopc,
        readTStepRest_masked jp fin opcode mp exp mt
          (parseExtLenT_be64 payload.length _) hmask, hv64]
    · have hv16 : beVal (be16 payload.length) = payload.length := beVal_be16 h2
      have hshape : toItems (mkFrame fin true opcode key payload) ++ restI
          = .b ((if fin then 0x80 else 0) + opcode) :: .b 254
              :: (toItems (be16 payload.length) ++
                  (toItems key ++ (toItems (xorMask key payload) ++ restI))) := by
        simp [mkFrame, if_neg (by omega : ¬ payload.length < 126), if_pos h2,
          toItems, List.append_assoc]
      rw [hshape, readTStep_cons,
        show (254 : Nat) &&& 0x7F = 126 from by decide,
        show (((254 : Nat) &&& 0x80) != 0) = true from by decide, hfin, hopc,
        readTStepRest_masked jp fin opcode mp exp mt
          (parseExtLenT_be16 payload.length _) hmask, hv16]

/-- One `read_t` iteration on a masked control frame violating the length or
FIN constraint resolves to a close and `Ok(None)`, regardless of the
reassembly state. -/
theorem readTStep_control_violation (jp : List Nat → Bool) (fin : Bool) (opcode : Nat)
    (key payload : List Nat) (restI : List Item)
    (mp : List Nat) (exp : Bool) (mt : Option Nat)
    (hop : opcode = 0x8 ∨ opcode = 0x9 ∨ opcode = 0xA) (hkey : key.length = 4)
    (hviol : 125 < payload.length ∨ fin = false) (hlen : payload.length < 2 ^ 64) :
    readTStep jp (toItems (mkFrame fin true opcode key payload) ++ restI) mp exp mt
      = .done ⟨.ok none, [closeBytes]⟩ := by
  have hop16 : opcode < 16 := by rcases hop with h | h | h <;> omega
  rw [readTStep_mkFrame jp fin opcode key payload restI mp exp mt hkey hop16 hlen]
  exact readTFrameBody_violation jp fin opcode payload.length key _ mp exp mt
    (by rcases hop with h | h | h <;> simp [h]) hviol

theorem readT_of_step_done (jp : List Nat → Bool) (items : List Item) (r : TRes)
    (hne : items ≠ []) (h : readTStep jp items [] false none = .done r) :
    readT jp items = r := by
  rcases items with _ | ⟨i, T⟩
  · exact absurd rfl hne
  · simp [readT, readTLoop, h]

/-- One `read_t` iteration on a complete (FIN=1) masked Text frame, with no
message in progress, resolves to the final conversion of the payload. -/
theorem readTStep_text_frame (jp : List Nat → Bool) (key payload : List Nat)
    (restI : List Item) (mp : List Nat) (exp : Bool) (mt : Option Nat)
    (hkey : key.length = 4) (hlen : payload.length < 2 ^ 64) (hexp : exp = false) :
    readTStep jp (toItems (mkFrame true true 0x1 key payload) ++ restI) mp exp mt
      = .done (convertT jp (some 0x1) (mp ++ payload)) := by
  subst hexp
  rw [readTStep_mkFrame jp true 0x1 key payload restI mp false mt hkey (by omega) hlen]
  exact readTFrameBody_text jp key payload restI mp mt

/-- `WebSocket::read_frame` on a server-role connection rejects a frame
whose mask bit is clear — any FIN bit, opcode and payload — with a close
frame and `InvalidFrame("Received unmasked frame from client")`
(`src/ws/mod.rs`, lines 158-165). -/
theorem readFrame_unmasked_server (fin : Bool) (opcode : Nat)
    (payload rest : List Nat) :
    readFrame false (mkFrame fin false opcode [] payload ++ rest)
      = ⟨.error (.invalidFrame "Received unmasked frame from client"), [(0x8, [])]⟩ := by
  rcases Nat.lt_or_ge payload.length 126 with h1 | h1
  · have hm : payload.length &&& 128 = 0 := land128_of_lt (by omega)
    have hl : payload.length &&& 127 = payload.length := land127_of_lt (by omega)
    have hshape : mkFrame fin false opcode [] payload ++ rest
        = ((if fin then 0x80 else 0) + opcode) :: payload.length :: (payload ++ rest) := by
      simp [mkFrame, if_pos h1]
    rw [hshape, readFrame_cons, hl, hm,
      show ((0 : Nat) != 0) = false from rfl,
      readFrameRest_unmasked_server _ _ (parseExtLen_small h1 _)]
  · rcases Nat.lt_or_ge 0xFFFF payload.length with h2 | h2
    · have hshape : mkFrame fin false opcode [] payload ++ rest
          = ((if fin then 0x80 else 0) + opcode) :: 127
              :: (be64 payload.length ++ (payload ++ rest)) := by
        simp [mkFrame, if_neg (by omega : ¬ payload.length < 126),
          if_neg (by omega : ¬ payload.length ≤ 0xFFFF)]
      rw [hshape, readFrame_cons,
        show (127 : Nat) &&& 0x7F = 127 from by decide,
        show (((127 : Nat) &&& 0x80) != 0) = false from by decide,
        readFrameRest_unmasked_server _ _ (parseExtLen_be64 payload.length _)]
    · have hshape : mkFrame fin false opcode [] payload ++ rest
          = ((if fin then 0x80 else 0) + opcode) :: 126
              :: (be16 payload.length ++ (payload ++ rest)) := by
        simp [mkFrame, if_neg (by omega : ¬ payload.length < 126), if_pos h2]
      rw [hshape, readFrame_cons,
        show (126 : Nat) &&& 0x7F = 126 from by decide,
        show (((126 : Nat) &&& 0x80) != 0) = false from by decide,
        readFrameRest_unmasked_server _ _ (parseExtLen_be16 payload.length _)]

/-! ## Claims -/

/-- C1: the frame codec does not round-trip with masking off.  A server-role
sender (`mask_payload = false`) encodes the Text frame with payload
`"hi!!!"` without a mask key, but the client-role receiver
(`WebSocket::read_frame` with `mask_payload = true`) reads a 4-byte mask key
unconditionally, consuming the first four payload bytes, and then fails to
read the full payload: the decode of the encode is an I/O error, not the
original frame. -/
theorem readFrame_mask_off_no_roundtrip :
    readFrame true (sendFrame false [] 0x1 [104, 105, 33, 33, 33])
      = ⟨.error .io, []⟩ := by
  decide

/-- C2: fragmentation is not transparent.  The Text message `"Hello"` split
by a (masked) sender into an initial frame `FIN=0, opcode 1, "He"` and a
final continuation frame `FIN=1, opcode 0, "llo"` is read back by
`WebSocket::read` as `Text "He"`: the `while let ... && !fin` loop exits
when the final frame arrives without appending that frame's payload, so the
result differs from the whole message `Text "Hello"` (bytes
`[72, 101, 108, 108, 111]`). -/
theorem wsRead_fragmented_drops_final_fragment :
    wsRead false ([0x01, 0x82, 0, 0, 0, 0, 72, 101] ++
                  [0x80, 0x83, 0, 0, 0, 0, 108, 108, 111])
      = ⟨.ok (.text [72, 101]), []⟩ := by
  decide

/-- C3 (counterexample): the claim fails for the blocking decoder.  On the
unmasked Text frame `[0x81, 2, 104, 105]` (FIN=1, opcode 1, payload `"hi"`,
mask bit clear), `Session::read_t` sends a close frame and returns
`Ok(None)` — the connection-should-close signal — and does not fail with
`InvalidFrame`, nor with any error at all (`src/session.rs`,
lines 261-268). -/
theorem readT_unmasked_returns_ok_none :
    readT (fun _ => true) (toItems [0x81, 0x02, 104, 105])
      = ⟨.ok none, [closeBytes]⟩ := by
  decide

/-- C3 (amended): masking-direction enforcement differs between the two
decoders.  For every received frame whose mask bit is clear — any FIN bit,
opcode and payload — the async `WebSocket::read_frame` on a server-role
connection (`mask_payload = false`) sends a close frame and fails with
`InvalidFrame("Received unmasked frame from client")`
(`src/ws/mod.rs`, lines 158-165), while the blocking `Session::read_t`
sends a close frame and returns `Ok(None)` — the connection-should-close
signal — rather than failing with any error (`src/session.rs`,
lines 261-268). -/
theorem unmasked_frame_rejection (fin : Bool) (opcode : Nat)
    (payload rest : List Nat) (jp : List Nat → Bool) :
    readFrame false (mkFrame fin false opcode [] payload ++ rest)
      = ⟨.error (.invalidFrame "Received unmasked frame from client"), [(0x8, [])]⟩
    ∧ readT jp (toItems (mkFrame fin false opcode [] payload))
      = ⟨.ok none, [closeBytes]⟩ := by
  refine ⟨readFrame_unmasked_server fin opcode payload rest, ?_⟩
  have hne : toItems (mkFrame fin false opcode [] payload) ≠ [] := by
    simp [mkFrame, toItems]
  have hstep := readTStep_unmasked jp fin opcode payload [] [] false none
  rw [List.append_nil] at hstep
  exact readT_of_step_done jp _ _ hne hstep

set_option maxRecDepth 10000 in
/-- C4 (counterexample): `WebSocket::read_frame` performs no control-frame
checks.  A masked Ping frame (opcode 0x9) with a 126-byte payload — longer
than the 125 bytes RFC 6455 allows — is decoded and delivered successfully
instead of raising a protocol error. -/
theorem readFrame_oversized_ping_delivered :
    readFrame false ([0x89, 0xFE, 0, 126] ++ List.replicate 4 0 ++ List.replicate 126 7)
      = ⟨.ok (true, 0x9, List.replicate 126 7, []), []⟩ := by
  decide

/-- C4 (amended): the async `WebSocket::read_frame` does not check control
frames at all (see the counterexample); the blocking `Session::read_t` does
enforce `payload_len ≤ 125` and `FIN = 1` for opcodes 0x8, 0x9 and 0xA, but
on violation it sends a close frame and returns `Ok(None)` — no frame is
delivered and no error is raised. -/
theorem readT_control_violation (jp : List Nat → Bool) (fin : Bool) (opcode : Nat)
    (key payload : List Nat) (restI : List Item)
    (hop : opcode = 0x8 ∨ opcode = 0x9 ∨ opcode = 0xA) (hkey : key.length = 4)
    (hviol : 125 < payload.length ∨ fin = false) (hlen : payload.length < 2 ^ 64) :
    readT jp (toItems (mkFrame fin true opcode key payload) ++ restI)
      = ⟨.ok none, [closeBytes]⟩ :=
  readT_of_step_done jp _ _
    (by simp [mkFrame, toItems])
    (readTStep_control_violation jp fin opcode key payload restI [] false none
      hop hkey hviol hlen)

/-- C4 (witness): a masked Ping frame with a 126-byte payload makes
`read_t` close and return `None`. -/
theorem readT_control_violation_witness :
    readT (fun _ => true) (toItems (mkFrame true true 0x9 [0, 0, 0, 0]
        (List.replicate 126 7)) ++ [])
      = ⟨.ok none, [closeBytes]⟩ :=
  readT_control_violation (fun _ => true) true 0x9 [0, 0, 0, 0]
    (List.replicate 126 7) [] (by simp) (by simp)
    (by simp) (by simp)

/-- C9 (counterexample): a masked Text frame whose payload `[0xFF]` is not
valid UTF-8 makes `WebSocket::read` fail with the `Utf8` error variant, not
with `InvalidFrame` as the claim states. -/
theorem wsRead_invalid_utf8_is_utf8_error :
    wsRead false (mkFrame true true 0x1 [0, 0, 0, 0] [0xFF]) = ⟨.error .utf8, []⟩
    ∧ isInvalidFrameRes (wsRead false (mkFrame true true 0x1 [0, 0, 0, 0] [0xFF])).res
        = false
    ∧ utf8Valid [0xFF] = false := by
  refine ⟨by decide, by decide, by decide⟩

/-- C9 (amended): for a reassembled Text message, `WebSocket::read` returns
the decoded string when the payload is valid UTF-8 and fails with the
`Utf8` error (`ws::Error::Utf8`, via `String::from_utf8(payload)?`) — not
`InvalidFrame` — when it is not; the blocking `Session::read_t` does not
fail at all on invalid UTF-8 and instead delivers the raw bytes as a
`Binary` message. -/
theorem wsRead_text_utf8 (key payload : List Nat) (jp : List Nat → Bool)
    (hkey : key.length = 4) (hlen : payload.length < 2 ^ 64) :
    (utf8Valid payload = true →
      wsRead false (mkFrame true true 0x1 key payload) = ⟨.ok (.text payload), []⟩)
    ∧ (utf8Valid payload = false →
      wsRead false (mkFrame true true 0x1 key payload) = ⟨.error .utf8, []⟩)
    ∧ (utf8Valid payload = false →
      readT jp (toItems (mkFrame true true 0x1 key payload))
        = ⟨.ok (some (.binary payload)), []⟩) := by
  have hrf := readFrame_mkFrame_masked false true 0x1 key payload [] hkey (by omega) hlen
  rw [List.append_nil] at hrf
  have hstep := readTStep_text_frame jp key payload [] [] false none hkey hlen rfl
  rw [List.append_nil] at hstep
  refine ⟨fun hu => ?_, fun hu => ?_, fun hu => ?_⟩
  · simp [wsRead, hrf, dispatchFrame, hu]
  · simp [wsRead, hrf, dispatchFrame, hu]
  · rw [readT_of_step_done jp _ _ (by simp [mkFrame, toItems]) hstep]
    simp [convertT, hu]

/-- C9 (witness): the Text frame with payload `"hi"` decodes to
`Text [104, 105]`. -/
theorem wsRead_text_utf8_witness :
    wsRead false (mkFrame true true 0x1 [1, 2, 3, 4] [104, 105])
      = ⟨.ok (.text [104, 105]), []⟩ :=
  (wsRead_text_utf8 [1, 2, 3, 4] [104, 105] (fun _ => true)
    (by decide) (by decide)).1 (by decide)

/-- C5: request/response correlation.  Each `request<M>` caller receives
from the fan-out exactly the first published `(id, is_error, payload)`
triple whose id equals its own — formally, the receive loop equals
`find?` by id — and any triple it returns was published under the caller's
own id, never another caller's. -/
theorem requestReceive_correlates {α : Type} (msgs : List (Nat × Bool × α)) (id : Nat) :
    requestReceive id msgs = (msgs.find? (fun m => m.1 == id)).map (fun m => m.2)
    ∧ ∀ r ∈ requestReceive id msgs, (id, r.1, r.2) ∈ msgs := by
  induction msgs with
  | nil => simp [requestReceive]
  | cons m rest ih =>
    obtain ⟨i, e, v⟩ := m
    by_cases h : i = id
    · subst h
      simp [requestReceive, List.find?]
    · have hb : (i == id) = false := by simp [h]
      simp only [requestReceive, List.find?, hb]
      refine ⟨by simp [ih.1], fun r hr => ?_⟩
      simp only [Bool.false_eq_true, if_false] at hr
      exact List.mem_cons_of_mem _ (ih.2 r hr)

/-- C5 (witness): with published triples for ids 2 and 1, the caller with
id 1 receives the triple published under id 1. -/
theorem requestReceive_correlates_witness :
    ((1 : Nat), true, (5 : Nat)) ∈ [(2, false, 0), (1, true, 5), (1, false, 7)] :=
  (requestReceive_correlates [(2, false, 0), (1, true, 5), (1, false, 7)] 1).2
    (true, 5) (by decide)

/-- C6: handshake accept round-trip.  For any 16 key bytes `K`, the accept
digest the server computes from the received key header `base64(K)`
(`src/session.rs`, lines 101-106) equals the expected digest the client
computes from its own key in `Session::connect` (`src/handshake.rs`, lines
149-154), both being `base64(SHA1(base64(K) ++ GUID))`; and the client's
verification succeeds exactly when the returned `Sec-WebSocket-Accept`
header equals that digest. -/
theorem handshake_accept_roundtrip (key16 header : List Nat) :
    serverAcceptKey (base64Bytes key16) = clientExpectedAccept key16
    ∧ (clientAcceptCheck key16 (some header) = true ↔
        header = clientExpectedAccept key16) := by
  refine ⟨rfl, ?_⟩
  simp [clientAcceptCheck]

set_option maxRecDepth 100000 in
/-- The SHA-1 and base64 embeddings agree with the RFC 6455 §1.3 example:
the key `dGhlIHNhbXBsZSBub25jZQ==` yields the accept value
`s3pPLMBiTxaQ9kYGzzhZRbK+xOo=`. -/
theorem serverAcceptKey_rfc6455_vector :
    serverAcceptKey (strBytes "dGhlIHNhbXBsZSBub25jZQ==")
      = strBytes "s3pPLMBiTxaQ9kYGzzhZRbK+xOo=" := by
  decide

set_option maxRecDepth 100000 in
/-- C7 (counterexample): the async server handshake
(`src/handshake.rs`) replies 101 to an upgrade request whose
`Sec-WebSocket-Version` is 12 and whose `Connection` header does not
contain `upgrade` — it performs neither check, although per the claim both
must make the handshake fail. -/
theorem asyncHandshake_skips_checks :
    isUpgraded (asyncHandshake ⟨"GET / HTTP/1.1",
      ["Upgrade: websocket", "Sec-WebSocket-Key: abc",
       "Sec-WebSocket-Version: 12", "Connection: keep-alive"]⟩).res = true
    ∧ versionOk (parseHeaders ["Upgrade: websocket", "Sec-WebSocket-Key: abc",
       "Sec-WebSocket-Version: 12", "Connection: keep-alive"]) = false
    ∧ connOk (parseHeaders ["Upgrade: websocket", "Sec-WebSocket-Key: abc",
       "Sec-WebSocket-Version: 12", "Connection: keep-alive"]) = false := by
  refine ⟨by decide, by decide, by decide⟩

/-- C7 (amended): the *blocking* server handshake (`src/session.rs`)
enforces the claim: on a WebSocket upgrade request it fails when
`Sec-WebSocket-Version` is present and not `13`, fails when the
`Connection` header does not contain `upgrade` case-insensitively, and
replies 101 exactly when the connection check passes, `Sec-WebSocket-Key`
is present and the version check passes.  The async handshake
(`src/handshake.rs`) performs neither the version nor the connection check
(see the counterexample). -/
theorem syncHandshake_validation (req : HsReq)
    (hGet : startsSeq "GET".toList (trimRightL req.requestLine.toList) = true)
    (hHead : startsSeq "HEAD".toList (trimRightL req.requestLine.toList) = false)
    (hUpg : ((headerLookup (parseHeaders req.headerLines) "upgrade".toList).map
        (fun v => eqIgnoreAsciiCase v "websocket".toList)).getD false = true) :
    (versionOk (parseHeaders req.headerLines) = false →
      isHsErr (syncHandshake req).res = true)
    ∧ (connOk (parseHeaders req.headerLines) = false →
      isHsErr (syncHandshake req).res = true)
    ∧ (isUpgraded (syncHandshake req).res = true ↔
        connOk (parseHeaders req.headerLines) = true
        ∧ (headerLookup (parseHeaders req.headerLines) "sec-websocket-key".toList).isSome
            = true
        ∧ versionOk (parseHeaders req.headerLines) = true) := by
  simp at hGet hHead hUpg
  by_cases hc : connOk (parseHeaders req.headerLines) = true
  · cases hk : headerLookup (parseHeaders req.headerLines) "sec-websocket-key".toList with
    | none =>
      simp only [show "sec-websocket-key".toList
        = ['s', 'e', 'c', '-', 'w', 'e', 'b', 's', 'o', 'c', 'k', 'e', 't',
           '-', 'k', 'e', 'y'] from rfl] at hk
      simp [syncHandshake, hGet, hHead, hUpg, hc, hk, isHsErr, isUpgraded]
    | some key =>
      simp only [show "sec-websocket-key".toList
        = ['s', 'e', 'c', '-', 'w', 'e', 'b', 's', 'o', 'c', 'k', 'e', 't',
           '-', 'k', 'e', 'y'] from rfl] at hk
      by_cases hv : versionOk (parseHeaders req.headerLines) = true
      · simp [syncHandshake, hGet, hHead, hUpg, hc, hk, hv, isHsErr, isUpgraded]
      · simp only [Bool.not_eq_true] at hv
        simp [syncHandshake, hGet, hHead, hUpg, hc, hk, hv, isHsErr, isUpgraded]
  · simp only [Bool.not_eq_true] at hc
    simp [syncHandshake, hGet, hHead, hUpg, hc, isHsErr, isUpgraded]

set_option maxRecDepth 100000 in
/-- C7 (witness): a well-formed upgrade request (version 13, `Connection:
Upgrade`, key present) passes the blocking handshake with a 101 reply. -/
theorem syncHandshake_validation_witness :
    isUpgraded (syncHandshake ⟨"GET / HTTP/1.1",
      ["Upgrade: websocket", "Connection: Upgrade",
       "Sec-WebSocket-Key: abc", "Sec-WebSocket-Version: 13"]⟩).res = true :=
  (syncHandshake_validation ⟨"GET / HTTP/1.1",
      ["Upgrade: websocket", "Connection: Upgrade",
       "Sec-WebSocket-Key: abc", "Sec-WebSocket-Version: 13"]⟩
    (by decide) (by decide) (by decide)).2.2.mpr
    ⟨by decide, by decide, by decide⟩

/-- C8 (counterexample): on the health-check request `HEAD / HTTP/1.1` the
handshake helper returns `Ok` and `Session::handshake` does construct a
WebSocket session object (`mask_payload = false`) from that connection —
the claim's "no WebSocket session is created" is false (the reply bytes,
the claim's other half, are as stated). -/
theorem sessionHandshake_head_creates_session :
    (sessionHandshake ⟨"HEAD / HTTP/1.1", []⟩).1 = .ok ⟨false⟩
    ∧ (sessionHandshake ⟨"HEAD / HTTP/1.1", []⟩).2
        = "HTTP/1.1 200 OK\r\nContent-Length: 0\r\n\r\n" := by
  refine ⟨by decide, by decide⟩

/-- C8 (amended): for every request whose request line starts with `HEAD`,
the server writes exactly
`HTTP/1.1 200 OK\r\nContent-Length: 0\r\n\r\n`, and the handshake helper
returns success, so `Session::handshake` constructs a session
(`mask_payload = false`) from the connection anyway — the caller relies on
the peer closing the connection. -/
theorem sessionHandshake_head (req : HsReq)
    (h : startsSeq "HEAD".toList (trimRightL req.requestLine.toList) = true) :
    (sessionHandshake req).2 = "HTTP/1.1 200 OK\r\nContent-Length: 0\r\n\r\n"
    ∧ (sessionHandshake req).1 = .ok ⟨false⟩ := by
  simp at h
  simp [sessionHandshake, asyncHandshake, h, Except.map]

/-- C8 (witness): the literal health-check request. -/
theorem sessionHandshake_head_witness :
    (sessionHandshake ⟨"HEAD / HTTP/1.1", []⟩).2
        = "HTTP/1.1 200 OK\r\nContent-Length: 0\r\n\r\n"
    ∧ (sessionHandshake ⟨"HEAD / HTTP/1.1", []⟩).1 = .ok ⟨false⟩ :=
  sessionHandshake_head ⟨"HEAD / HTTP/1.1", []⟩ (by decide)

/-- C10: implicit keepalive on read timeout.  The blocking `Session::new`
sets 10-second read and write timeouts on the stream, and a timeout
(`WouldBlock`/`TimedOut`) while `read_t` waits for a frame header never
surfaces: `read_t` on a stream starting with a timeout event equals
`read_t` on the remaining stream with one ping frame (`[0x89, 0x00]`)
prepended to the writes — so it returns only what the rest of the stream
produces (a message, a close/EOF, or a different error). -/
theorem readT_timeout_keepalive :
    sessionNewConfig.readTimeoutSecs = some 10
    ∧ sessionNewConfig.writeTimeoutSecs = some 10
    ∧ ∀ (jp : List Nat → Bool) (evs : List Item),
        readT jp (.to :: evs) = ⟨(readT jp evs).res, pingBytes :: (readT jp evs).sent⟩ := by
  refine ⟨rfl, rfl, fun jp evs => ?_⟩
  simp [readT, readTLoop, readTStep]

end SessionRs
